import Mathlib

/-!
Verification of the MIG loader / API manifest-reconciliation core.

The development shallowly embeds the Go sources:
  - src/unnamed/part_000                 (mig package: parameters, bundle, hashing)
  - src/src/mig/api/manifest_endpoints.go (server side: resolver, content loader)
  - src/src/mig/loader/loader.go          (client side: reconciliation engine)

External collaborators are abstracted as explicit function parameters:
  - hashHex : List Nat → String  stands for the SHA-256 hex digest engine
    (crypto/sha256).  The sources feed the hash in successive 4096-byte
    chunks; incrementally hashing successive chunks hashes their
    concatenation, so the model applies hashHex to the whole content.
  - gzCompress / gzDecompress stand for compress/gzip writer and reader.
  - load / fs parameters stand for the filesystem: reading a file either
    yields its full content or fails, which the model collapses into
    Option / FileResult values per path.
-/

namespace Mig

/-- Character class of the validation regexp [A-Za-z0-9]
(src/unnamed/part_000, line 35). -/
def isAlnumChar (c : Char) : Bool :=
  (decide (Char.ofNat 65 ≤ c) && decide (c ≤ Char.ofNat 90)) ||
  (decide (Char.ofNat 97 ≤ c) && decide (c ≤ Char.ofNat 122)) ||
  (decide (Char.ofNat 48 ≤ c) && decide (c ≤ Char.ofNat 57))

/-- Go regexp.MatchString for the anchored pattern of one or more
alphanumeric characters: the string is nonempty and every character is in
the class [A-Za-z0-9]. -/
def matchAlnumPlus (s : String) : Bool :=
  !s.data.isEmpty && s.data.all isAlnumChar

/-- Manifest request parameters sent by the loader to the API
(src/unnamed/part_000, lines 22-26). -/
structure ManifestParameters where
  Operator : String
  OS : String
  Arch : String
deriving DecidableEq

/-- ManifestParameters.Validate (src/unnamed/part_000, lines 28-41): reject
any empty field, then reject any field that does not match the anchored
alphanumeric regexp, since the fields are later used to construct the path
to the manifest file. -/
def ManifestParameters.Validate (m : ManifestParameters) : Except String Unit :=
  if m.Operator == "" || m.OS == "" || m.Arch == "" then
    Except.error "invalid manifest parameters"
  else if !matchAlnumPlus m.Operator || !matchAlnumPlus m.OS || !matchAlnumPlus m.Arch then
    Except.error "bad characters in manifest parameters"
  else
    Except.ok ()

/-- One manifest entry: bundle name and expected SHA-256
(src/unnamed/part_000, lines 47-50). -/
structure ManifestEntry where
  Name : String
  SHA256 : String
deriving DecidableEq

/-- A manifest document (src/unnamed/part_000, lines 43-45). -/
structure ManifestResponse where
  Entries : List ManifestEntry
deriving DecidableEq

/-- One bundle dictionary entry: symbolic name, filesystem path, digest
(src/unnamed/part_000, lines 57-61). -/
structure BundleDictionaryEntry where
  Name : String
  Path : String
  SHA256 : String
deriving DecidableEq

/-- The compiled-in linux entry templates (src/unnamed/part_000,
lines 63-66): path populated, digest empty. -/
def bundleEntryLinux : List BundleDictionaryEntry :=
  [BundleDictionaryEntry.mk "agent" "/sbin/mig-agent" "",
   BundleDictionaryEntry.mk "configuration" "/etc/mig/mig-agent.cfg" ""]

/-- The process-wide bundle dictionary (src/unnamed/part_000, lines 68-70),
a Go map modelled as an association list. -/
def BundleDictionary : List (String × List BundleDictionaryEntry) :=
  [("linux", bundleEntryLinux)]

/-- GetHostBundle (src/unnamed/part_000, lines 72-78), with runtime.GOOS as
an explicit argument.  Go returns the slice bundleEntryLinux itself (a slice
header copy, not an array copy), so the caller's slice aliases the
process-wide table; see hashBundleBackingAfter below. -/
def GetHostBundle (goos : String) : Except String (List BundleDictionaryEntry) :=
  if goos == "linux" then Except.ok bundleEntryLinux
  else Except.error "no entry in bundle dictionary"

/-- Outcome of opening and fully reading one local file, as distinguished by
HashBundle (src/unnamed/part_000, lines 83-108): the os.IsNotExist branch of
the open error, a successful chunked read of the whole content, or any other
open/read failure. -/
inductive FileResult where
  | absent : FileResult
  | content : List Nat → FileResult
  | ioError : FileResult
deriving DecidableEq

/-- HashBundle (src/unnamed/part_000, lines 80-113).  For each entry in
order: if the file at the entry's path does not exist, the loop continues,
leaving that entry's SHA256 field exactly as it was in the input; any other
open or read error aborts the whole call with an error; otherwise the
entry's SHA256 field is set to the hex digest of the file content (the
source hashes 4096-byte chunks incrementally, which digests the whole
content). -/
def HashBundle (fs : String → FileResult) (hashHex : List Nat → String) :
    List BundleDictionaryEntry → Except String (List BundleDictionaryEntry)
  | [] => Except.ok []
  | e :: rest =>
    match fs e.Path with
    | FileResult.ioError => Except.error "read failure"
    | FileResult.absent =>
      match HashBundle fs hashHex rest with
      | Except.error msg => Except.error msg
      | Except.ok r => Except.ok (e :: r)
    | FileResult.content bs =>
      match HashBundle fs hashHex rest with
      | Except.error msg => Except.error msg
      | Except.ok r => Except.ok (BundleDictionaryEntry.mk e.Name e.Path (hashHex bs) :: r)

/-- Contents of the backing array of HashBundle's argument slice after the
call returns.  In the source, HashBundle begins with a slice header copy
(line 81) and then assigns through it (line 110), so every digest write
lands in the caller's backing array — the process-wide bundleEntryLinux
table when reached via GetHostBundle.  On success the array holds exactly
the returned entries; when the loop aborts with a read error, the entries
processed before the failure are already updated and the failing entry and
its successors are untouched. -/
def hashBundleBackingAfter (fs : String → FileResult) (hashHex : List Nat → String) :
    List BundleDictionaryEntry → List BundleDictionaryEntry
  | [] => []
  | e :: rest =>
    match fs e.Path with
    | FileResult.ioError => e :: rest
    | FileResult.absent => e :: hashBundleBackingAfter fs hashHex rest
    | FileResult.content bs =>
      BundleDictionaryEntry.mk e.Name e.Path (hashHex bs) ::
        hashBundleBackingAfter fs hashHex rest

/-- The operator-specific manifest tier root, path.Join(ctx.Manifest.Path,
p.Operator, p.Arch, p.OS) (src/src/mig/api/manifest_endpoints.go, line 207).
For validated, slash-free, nonempty components path.Join is concatenation
with a single separator. -/
def operatorTierRoot (rootPath : String) (p : ManifestParameters) : String :=
  rootPath ++ "/" ++ p.Operator ++ "/" ++ p.Arch ++ "/" ++ p.OS

/-- The default manifest tier root, path.Join(ctx.Manifest.Path, "default",
p.Arch, p.OS) (src/src/mig/api/manifest_endpoints.go, line 208). -/
def defaultTierRoot (rootPath : String) (p : ManifestParameters) : String :=
  rootPath ++ "/default/" ++ p.Arch ++ "/" ++ p.OS

/-- manifestRoot (src/src/mig/api/manifest_endpoints.go, lines 203-220).
manifestLoad (open + read + JSON unmarshal, lines 185-201) is abstracted as
the load parameter: some when the file loads and parses, none otherwise.
Try the operator tier first; on success return that root and manifest in
full; else try the default tier; else fail. -/
def manifestRoot (load : String → Option ManifestResponse) (rootPath : String)
    (p : ManifestParameters) : Except String (String × ManifestResponse) :=
  let proot := operatorTierRoot rootPath p
  let psecondary := defaultTierRoot rootPath p
  let primary := proot ++ "/manifest.json"
  let secondary := psecondary ++ "/manifest.json"
  match load primary with
  | some m => Except.ok (proot, m)
  | none =>
    match load secondary with
    | some m => Except.ok (psecondary, m)
    | none => Except.error "unable to locate manifest"

/-- The manifest resolution order in the spec's words, for comparison with
manifestRoot: primary = root/operator/arch/os/manifest.json, returned in
full when it loads and parses, else secondary =
root/default/arch/os/manifest.json, else a not-found error; the tiers are
never merged. -/
def manifestResolutionSpec (load : String → Option ManifestResponse) (rootPath : String)
    (p : ManifestParameters) : Except String (String × ManifestResponse) :=
  match load (operatorTierRoot rootPath p ++ "/manifest.json") with
  | some m => Except.ok (operatorTierRoot rootPath p, m)
  | none =>
    match load (defaultTierRoot rootPath p ++ "/manifest.json") with
    | some m => Except.ok (defaultTierRoot rootPath p, m)
    | none => Except.error "unable to locate manifest"

/-- getAgentManifest (src/src/mig/api/manifest_endpoints.go, lines 139-183),
after form parsing and JSON unmarshalling of the parameters: Validate runs
first and any validation error aborts the request (the source panics into
the 500 handler) before manifestRoot is consulted; on success the resolved
manifest is returned as the response payload. -/
def getAgentManifest (load : String → Option ManifestResponse) (rootPath : String)
    (p : ManifestParameters) : Except String ManifestResponse :=
  match p.Validate with
  | Except.error e => Except.error e
  | Except.ok _ =>
    match manifestRoot load rootPath p with
    | Except.error e => Except.error e
    | Except.ok rm => Except.ok rm.2

/-- loadContent (src/src/mig/api/manifest_endpoints.go, lines 95-133).
The fs parameter models os.Open + the chunked read loop: none when the open
fails ("unable to load manifest object"; mid-read failures, which also abort
with an error in the source, are collapsed into the same missing-content
case), some content when the file reads fully.  The loop feeds each chunk
to the hash and to the gzip writer, digesting and compressing the whole
content; if the computed digest differs from the manifest digest the
function fails and returns no payload, otherwise it returns the compressed
bytes. -/
def loadContent (fs : String → Option (List Nat)) (hashHex : List Nat → String)
    (gzCompress : List Nat → List Nat) (pathArg : String) (sig : String) :
    Except String (List Nat) :=
  match fs pathArg with
  | none => Except.error "unable to load manifest object"
  | some content =>
    let vsig := hashHex content
    if vsig ≠ sig then Except.error "manifest signature did not match file"
    else Except.ok (gzCompress content)

/-- The decompression tail of fetchFile (src/src/mig/loader/loader.go,
lines 159-170): the transported payload fetchresp.Data is run through a
gzip reader and the decompressed bytes are returned; a gzip failure is an
error. -/
def fetchFileDecompress (gzDecompress : List Nat → Option (List Nat))
    (respData : List Nat) : Except String (List Nat) :=
  match gzDecompress respData with
  | none => Except.error "gzip decode failure"
  | some out => Except.ok out

/-- The client-visible filesystem state: file contents by path. -/
structure World where
  fs : String → Option (List Nat)

/-- Writing a file (os.OpenFile with O_CREATE, O_TRUNC, O_WRONLY followed by
Write and Close): the path now holds exactly the written bytes. -/
def writeFile (pathArg : String) (bs : List Nat) (w : World) : World :=
  World.mk (fun p => if p = pathArg then some bs else w.fs p)

/-- os.Rename src dst: dst now holds what src held, src is gone. -/
def renameFile (src : String) (dst : String) (w : World) : World :=
  World.mk (fun p => if p = dst then w.fs src else if p = src then none else w.fs p)

/-- fetchAndReplace (src/src/mig/loader/loader.go, lines 173-225).  The
fetch parameter stands for fetchFile's network interaction (returning the
decompressed artifact bytes or an error).  Steps, as in the source: fetch;
stage the bytes at entry.Path + ".loader" (mode 0700); re-open the staged
file and recompute its digest with the chunked sha256 loop; on mismatch
return the error "staged file signature mismatch" with no rename and no
deletion of the staged file; otherwise perform os.Rename of the staged file
over the target.  The rename's error is assigned to err but never checked
(line 222-224): renameOk models whether the rename succeeds, and the
function returns success in both cases, exactly as the source returns nil.
The open and write error paths of staging, which return the error
immediately in the source, are modelled as always succeeding. -/
def fetchAndReplace (fetch : String → Except String (List Nat))
    (hashHex : List Nat → String) (renameOk : Bool)
    (w : World) (entry : BundleDictionaryEntry) (sig : String) :
    World × Except String Unit :=
  match fetch entry.Name with
  | Except.error e => (w, Except.error e)
  | Except.ok filebuf =>
    let reppath := entry.Path ++ ".loader"
    let w1 := writeFile reppath filebuf w
    match w1.fs reppath with
    | none => (w1, Except.error "staged file missing")
    | some staged =>
      if sig ≠ hashHex staged then
        (w1, Except.error "staged file signature mismatch")
      else
        if renameOk then (renameFile reppath entry.Path w1, Except.ok ())
        else (w1, Except.ok ())

/-- checkEntry (src/src/mig/loader/loader.go, lines 227-254): look the entry
up in the manifest by name; when absent, ignore the entry and succeed.  In
the source, when the local and manifest digests are equal only the log line
"Nothing to do here..." runs — the early return on that branch is commented
out (line 246), so control falls through and fetchAndReplace runs
unconditionally whenever the entry is present in the manifest. -/
def checkEntry (fetch : String → Except String (List Nat))
    (hashHex : List Nat → String) (renameOk : Bool)
    (manifest : ManifestResponse) (w : World) (entry : BundleDictionaryEntry) :
    World × Except String Unit :=
  match manifest.Entries.find? (fun x => x.Name == entry.Name) with
  | none => (w, Except.ok ())
  | some compare => fetchAndReplace fetch hashHex renameOk w entry compare.SHA256

/-- compareManifest (src/src/mig/loader/loader.go, lines 259-267): process
the snapshot entries in order; the first checkEntry error is returned
immediately and ends the loop. -/
def compareManifest (fetch : String → Except String (List Nat))
    (hashHex : List Nat → String) (renameOk : Bool)
    (manifest : ManifestResponse) :
    World → List BundleDictionaryEntry → World × Except String Unit
  | w, [] => (w, Except.ok ())
  | w, x :: rest =>
    match checkEntry fetch hashHex renameOk manifest w x with
    | (w2, Except.error e) => (w2, Except.error e)
    | (w2, Except.ok _) => compareManifest fetch hashHex renameOk manifest w2 rest

/-- A path never equals itself with the ".loader" staging suffix appended. -/
theorem ne_append_loader (s : String) : s ≠ s ++ ".loader" := by
  intro h
  have h2 := congrArg String.length h
  rw [String.length_append] at h2
  simp at h2
  exact absurd h2 (by decide)

/-- A string containing a character outside [A-Za-z0-9] fails the anchored
alphanumeric pattern. -/
theorem matchAlnumPlus_eq_false_of_bad (s : String) (c : Char)
    (hc : c ∈ s.data) (hbad : isAlnumChar c = false) : matchAlnumPlus s = false := by
  have hall : s.data.all isAlnumChar = false :=
    List.all_eq_false.mpr ⟨c, hc, by simp [hbad]⟩
  simp [matchAlnumPlus, hall]

/-- Claim C1 (code_bug evidence): with the local digest equal to the
manifest digest, checkEntry still attempts the artifact fetch — the early
return on the equal-digest branch is commented out in the source — so the
reconciliation performed against an unchanged manifest and filesystem is
not fetch-free or write-free.  Here the fetch is observed: with equal
digests "aa" on both sides, checkEntry returns the fetch failure instead of
skipping the entry. -/
theorem claim1_checkEntry_fetches_on_equal_digest :
    (checkEntry (fun _ => Except.error "fetch attempted") (fun _ => "aa") true
        (ManifestResponse.mk [ManifestEntry.mk "agent" "aa"])
        (World.mk (fun _ => none))
        (BundleDictionaryEntry.mk "agent" "/sbin/mig-agent" "aa")).2
      = Except.error "fetch attempted" := rfl

/-- Claim C2 counterexample: a staged-integrity failure on the first
artifact aborts the whole run.  Both snapshot entries differ from the
manifest, the first fetched artifact hashes to "xx" instead of the expected
"aa", and compareManifest returns that error with the second entry never
processed: its staging path was never written. -/
theorem claim2_counterexample :
    (compareManifest
        (fun n => if n == "agent" then Except.ok [1] else Except.ok [2])
        (fun bs => if bs == [1] then "xx" else "yy") true
        (ManifestResponse.mk [ManifestEntry.mk "agent" "aa", ManifestEntry.mk "configuration" "bb"])
        (World.mk (fun _ => none))
        [BundleDictionaryEntry.mk "agent" "/sbin/mig-agent" "",
         BundleDictionaryEntry.mk "configuration" "/etc/mig/mig-agent.cfg" ""]).2
      = Except.error "staged file signature mismatch" ∧
    (compareManifest
        (fun n => if n == "agent" then Except.ok [1] else Except.ok [2])
        (fun bs => if bs == [1] then "xx" else "yy") true
        (ManifestResponse.mk [ManifestEntry.mk "agent" "aa", ManifestEntry.mk "configuration" "bb"])
        (World.mk (fun _ => none))
        [BundleDictionaryEntry.mk "agent" "/sbin/mig-agent" "",
         BundleDictionaryEntry.mk "configuration" "/etc/mig/mig-agent.cfg" ""]).1.fs
        "/etc/mig/mig-agent.cfg.loader" = none :=
  ⟨rfl, rfl⟩

/-- Claim C2 amended: an error from one artifact's update (in particular a
staged-integrity failure) aborts the whole reconciliation run:
compareManifest returns that error immediately and the remaining snapshot
entries are not processed. -/
theorem claim2_compareManifest_aborts_on_error
    (fetch : String → Except String (List Nat)) (hashHex : List Nat → String)
    (renameOk : Bool) (manifest : ManifestResponse) (w w2 : World)
    (entry : BundleDictionaryEntry) (rest : List BundleDictionaryEntry) (msg : String)
    (h : checkEntry fetch hashHex renameOk manifest w entry = (w2, Except.error msg)) :
    compareManifest fetch hashHex renameOk manifest w (entry :: rest)
      = (w2, Except.error msg) := by
  simp [compareManifest, h]

/-- Claim C2 amended, witness: a failing first entry ends the run with its
error. -/
theorem claim2_compareManifest_aborts_on_error_witness :
    compareManifest (fun _ => Except.error "network down") (fun _ => "aa") true
        (ManifestResponse.mk [ManifestEntry.mk "agent" "aa"])
        (World.mk (fun _ => none))
        [BundleDictionaryEntry.mk "agent" "/sbin/mig-agent" "",
         BundleDictionaryEntry.mk "configuration" "/etc/mig/mig-agent.cfg" ""]
      = (World.mk (fun _ => none), Except.error "network down") :=
  claim2_compareManifest_aborts_on_error _ _ _ _ _ _ _ _ _ rfl

/-- Claim C3: if operator, OS, or arch is empty or contains any character
outside [A-Za-z0-9], Validate returns an error, and getAgentManifest
rejects the request with an error whose value does not depend on the
manifest root or on the filesystem — no manifest path is consulted. -/
theorem claim3_validate_rejects_unsafe_parameters (p : ManifestParameters)
    (load load2 : String → Option ManifestResponse) (rootPath rootPath2 : String)
    (h : p.Operator = "" ∨ p.OS = "" ∨ p.Arch = "" ∨
      (∃ c ∈ p.Operator.data, isAlnumChar c = false) ∨
      (∃ c ∈ p.OS.data, isAlnumChar c = false) ∨
      (∃ c ∈ p.Arch.data, isAlnumChar c = false)) :
    (∃ e, p.Validate = Except.error e) ∧
    getAgentManifest load rootPath p = getAgentManifest load2 rootPath2 p ∧
    (∃ e, getAgentManifest load rootPath p = Except.error e) := by
  have hv : ∃ e, p.Validate = Except.error e := by
    by_cases h0 : (p.Operator == "" || p.OS == "" || p.Arch == "") = true
    · exact ⟨"invalid manifest parameters", by simp [ManifestParameters.Validate, h0]⟩
    · have hne : (p.Operator ≠ "" ∧ p.OS ≠ "") ∧ p.Arch ≠ "" := by
        simpa using h0
      have hbad : (!matchAlnumPlus p.Operator || !matchAlnumPlus p.OS ||
          !matchAlnumPlus p.Arch) = true := by
        rcases h with h | h | h | ⟨c, hc, hb⟩ | ⟨c, hc, hb⟩ | ⟨c, hc, hb⟩
        · exact absurd h hne.1.1
        · exact absurd h hne.1.2
        · exact absurd h hne.2
        · simp [matchAlnumPlus_eq_false_of_bad _ c hc hb]
        · simp [matchAlnumPlus_eq_false_of_bad _ c hc hb]
        · simp [matchAlnumPlus_eq_false_of_bad _ c hc hb]
      exact ⟨"bad characters in manifest parameters",
        by simp [ManifestParameters.Validate, h0, hbad]⟩
  obtain ⟨e, he⟩ := hv
  exact ⟨⟨e, he⟩, by simp [getAgentManifest, he], ⟨e, by simp [getAgentManifest, he]⟩⟩

/-- Claim C3 witness: the traversal attempt "../../etc" is rejected, with
the same error for two different filesystems and roots. -/
theorem claim3_validate_rejects_unsafe_parameters_witness :
    (∃ e, (ManifestParameters.mk "../../etc" "linux" "amd64").Validate = Except.error e) ∧
    getAgentManifest (fun _ => none) "/srv/manifests"
        (ManifestParameters.mk "../../etc" "linux" "amd64")
      = getAgentManifest (fun _ => some (ManifestResponse.mk [])) "/other"
        (ManifestParameters.mk "../../etc" "linux" "amd64") ∧
    (∃ e, getAgentManifest (fun _ => none) "/srv/manifests"
        (ManifestParameters.mk "../../etc" "linux" "amd64") = Except.error e) :=
  claim3_validate_rejects_unsafe_parameters _ _ _ _ _
    (Or.inr (Or.inr (Or.inr (Or.inl ⟨Char.ofNat 46, by decide, by decide⟩))))

/-- Claim C4: when the digest computed over the file content differs from
the expected digest, loadContent fails with an error and returns no payload
bytes. -/
theorem claim4_loadContent_fails_closed (fs : String → Option (List Nat))
    (hashHex : List Nat → String) (gzCompress : List Nat → List Nat)
    (pathArg sig : String) (content : List Nat)
    (hread : fs pathArg = some content) (hmis : hashHex content ≠ sig) :
    loadContent fs hashHex gzCompress pathArg sig
      = Except.error "manifest signature did not match file" := by
  simp [loadContent, hread, hmis]

/-- Claim C4 witness: drifted server content is never served. -/
theorem claim4_loadContent_fails_closed_witness :
    loadContent (fun p => if p = "/m/files/agent" then some [1, 2] else none)
      (fun _ => "00") (fun bs => bs) "/m/files/agent" "11"
      = Except.error "manifest signature did not match file" :=
  claim4_loadContent_fails_closed _ _ _ _ _ [1, 2] (by simp) (by decide)

/-- Claim C5: manifestRoot resolves exactly as the spec states — the
operator-specific manifest root/operator/arch/os/manifest.json is returned
in full when it loads and parses, otherwise the default manifest
root/default/arch/os/manifest.json when it loads and parses, otherwise a
not-found error; the tiers are never merged. -/
theorem claim5_manifestRoot_two_tier (load : String → Option ManifestResponse)
    (rootPath : String) (p : ManifestParameters) :
    manifestRoot load rootPath p = manifestResolutionSpec load rootPath p := rfl

/-- Claim C6 counterexample: HashBundle does not emit an empty digest for an
absent file; it leaves the entry's digest field exactly as it was in the
input, so an entry carrying a nonempty digest keeps it. -/
theorem claim6_counterexample :
    HashBundle (fun _ => FileResult.absent) (fun _ => "00")
        [BundleDictionaryEntry.mk "agent" "/sbin/mig-agent" "ff"]
      = Except.ok [BundleDictionaryEntry.mk "agent" "/sbin/mig-agent" "ff"] ∧
    (BundleDictionaryEntry.mk "agent" "/sbin/mig-agent" "ff").SHA256 ≠ "" :=
  ⟨rfl, by decide⟩

/-- Claim C6 amended: for every bundle entry list, HashBundle emits an entry
with its digest left unchanged when the file at the entry's path does not
exist (so the compiled-in templates, whose digests start empty, come out
with an empty digest — a valid state, not an error), emits the digest of
the file's content when it exists, and aborts the whole snapshot with an
error as soon as any entry's file fails with any other I/O error. -/
theorem claim6_hashBundle_amended (fs : String → FileResult)
    (hashHex : List Nat → String) (b : List BundleDictionaryEntry) :
    ((∀ e ∈ b, fs e.Path ≠ FileResult.ioError) →
      HashBundle fs hashHex b = Except.ok (b.map (fun e =>
        match fs e.Path with
        | FileResult.content bs => BundleDictionaryEntry.mk e.Name e.Path (hashHex bs)
        | _ => e))) ∧
    ((∃ e ∈ b, fs e.Path = FileResult.ioError) →
      HashBundle fs hashHex b = Except.error "read failure") := by
  induction b with
  | nil =>
    exact ⟨fun _ => rfl, fun hex => absurd hex (by simp)⟩
  | cons x rest ih =>
    constructor
    · intro hno
      have hx : fs x.Path ≠ FileResult.ioError := hno x (by simp)
      have hr := ih.1 (fun e he => hno e (by simp [he]))
      cases hfs : fs x.Path with
      | ioError => exact absurd hfs hx
      | absent => simp [HashBundle, hfs, hr]
      | content bs => simp [HashBundle, hfs, hr]
    · rintro ⟨e, he, hio⟩
      rcases List.mem_cons.mp he with rfl | hmem
      · simp [HashBundle, hio]
      · cases hfs : fs x.Path with
        | ioError => simp [HashBundle, hfs]
        | absent => simp [HashBundle, hfs, ih.2 ⟨e, hmem, hio⟩]
        | content bs => simp [HashBundle, hfs, ih.2 ⟨e, hmem, hio⟩]

/-- Claim C6 amended, witness: a present file is digested, an I/O failure
aborts the snapshot. -/
theorem claim6_hashBundle_amended_witness :
    HashBundle (fun _ => FileResult.content [1]) (fun _ => "aa")
        [BundleDictionaryEntry.mk "agent" "/p" ""]
      = Except.ok [BundleDictionaryEntry.mk "agent" "/p" "aa"] ∧
    HashBundle (fun _ => FileResult.ioError) (fun _ => "aa")
        [BundleDictionaryEntry.mk "agent" "/p" ""]
      = Except.error "read failure" := by
  constructor
  · have h := (claim6_hashBundle_amended (fun _ => FileResult.content [1]) (fun _ => "aa")
      [BundleDictionaryEntry.mk "agent" "/p" ""]).1 (by intro e _; simp)
    simpa using h
  · exact (claim6_hashBundle_amended (fun _ => FileResult.ioError) (fun _ => "aa")
      [BundleDictionaryEntry.mk "agent" "/p" ""]).2
      ⟨BundleDictionaryEntry.mk "agent" "/p" "", by simp, rfl⟩

/-- Claim C7: when the digest recomputed over the staged file differs from
the expected manifest digest, fetchAndReplace returns an error before any
rename: the target path's content is unchanged and the staged file (target
path plus ".loader") is left on disk holding the fetched bytes. -/
theorem claim7_fetchAndReplace_staged_integrity
    (fetch : String → Except String (List Nat)) (hashHex : List Nat → String)
    (renameOk : Bool) (w : World) (entry : BundleDictionaryEntry)
    (sig : String) (filebuf : List Nat)
    (hf : fetch entry.Name = Except.ok filebuf)
    (hmis : hashHex filebuf ≠ sig) :
    (fetchAndReplace fetch hashHex renameOk w entry sig).2
      = Except.error "staged file signature mismatch" ∧
    (fetchAndReplace fetch hashHex renameOk w entry sig).1.fs entry.Path
      = w.fs entry.Path ∧
    (fetchAndReplace fetch hashHex renameOk w entry sig).1.fs (entry.Path ++ ".loader")
      = some filebuf := by
  refine ⟨?_, ?_, ?_⟩ <;>
    simp [fetchAndReplace, hf, writeFile, Ne.symm hmis, ne_append_loader entry.Path]

/-- Claim C7 witness: a fetched artifact hashing to "xx" against expected
"aa" is never renamed over the target; the staged copy stays. -/
theorem claim7_fetchAndReplace_staged_integrity_witness :
    (fetchAndReplace (fun _ => Except.ok [1]) (fun _ => "xx") true
        (World.mk (fun _ => none))
        (BundleDictionaryEntry.mk "agent" "/sbin/mig-agent" "") "aa").2
      = Except.error "staged file signature mismatch" ∧
    (fetchAndReplace (fun _ => Except.ok [1]) (fun _ => "xx") true
        (World.mk (fun _ => none))
        (BundleDictionaryEntry.mk "agent" "/sbin/mig-agent" "") "aa").1.fs "/sbin/mig-agent"
      = none ∧
    (fetchAndReplace (fun _ => Except.ok [1]) (fun _ => "xx") true
        (World.mk (fun _ => none))
        (BundleDictionaryEntry.mk "agent" "/sbin/mig-agent" "") "aa").1.fs
        ("/sbin/mig-agent" ++ ".loader")
      = some [1] :=
  claim7_fetchAndReplace_staged_integrity _ _ _ _ _ _ [1] rfl (by decide)

/-- Claim C8 counterexample: GetHostBundle hands out the process-wide table
itself, and after HashBundle runs over it with a file present on disk, the
backing array of that table no longer equals the compiled-in templates —
the snapshot has written a digest through the shared slice. -/
theorem claim8_counterexample :
    GetHostBundle "linux" = Except.ok bundleEntryLinux ∧
    hashBundleBackingAfter
        (fun p => if p = "/sbin/mig-agent" then FileResult.content [1] else FileResult.absent)
        (fun _ => "aa") bundleEntryLinux
      ≠ bundleEntryLinux :=
  ⟨rfl, by decide⟩

/-- Claim C8 amended: the compiled-in templates start with path populated
and digest empty, and HashBundle never alters any entry's name or path; but
HashBundle writes the computed digests through the shared backing array of
its argument slice, so on success the process-wide table ends up holding
exactly the returned, digested entries rather than the original
templates. -/
theorem claim8_backing_array_mutation (fs : String → FileResult)
    (hashHex : List Nat → String) (b : List BundleDictionaryEntry) :
    (hashBundleBackingAfter fs hashHex b).map (fun e => (e.Name, e.Path))
      = b.map (fun e => (e.Name, e.Path)) ∧
    (∀ r, HashBundle fs hashHex b = Except.ok r →
      hashBundleBackingAfter fs hashHex b = r) := by
  induction b with
  | nil =>
    refine ⟨rfl, fun r hr => ?_⟩
    simp [HashBundle] at hr
    simp [hashBundleBackingAfter, ← hr]
  | cons x rest ih =>
    constructor
    · cases hfs : fs x.Path with
      | ioError => simp [hashBundleBackingAfter, hfs]
      | absent => simp [hashBundleBackingAfter, hfs, ih.1]
      | content bs => simp [hashBundleBackingAfter, hfs, ih.1]
    · intro r hr
      cases hfs : fs x.Path with
      | ioError => simp [HashBundle, hfs] at hr
      | absent =>
        rw [HashBundle] at hr
        simp [hfs] at hr
        cases hrest : HashBundle fs hashHex rest with
        | error msg => simp [hrest] at hr
        | ok r2 =>
          simp [hrest] at hr
          simp [hashBundleBackingAfter, hfs, ih.2 r2 hrest, ← hr]
      | content bs =>
        rw [HashBundle] at hr
        simp [hfs] at hr
        cases hrest : HashBundle fs hashHex rest with
        | error msg => simp [hrest] at hr
        | ok r2 =>
          simp [hrest] at hr
          simp [hashBundleBackingAfter, hfs, ih.2 r2 hrest, ← hr]

/-- Claim C8 amended, witness: running the snapshot over the host bundle
with both files present leaves the backing array holding digested entries
while names and paths are preserved. -/
theorem claim8_backing_array_mutation_witness :
    (hashBundleBackingAfter (fun _ => FileResult.content [1]) (fun _ => "aa")
        bundleEntryLinux).map (fun e => (e.Name, e.Path))
      = bundleEntryLinux.map (fun e => (e.Name, e.Path)) ∧
    hashBundleBackingAfter (fun _ => FileResult.content [1]) (fun _ => "aa")
        bundleEntryLinux
      = [BundleDictionaryEntry.mk "agent" "/sbin/mig-agent" "aa",
         BundleDictionaryEntry.mk "configuration" "/etc/mig/mig-agent.cfg" "aa"] :=
  ⟨(claim8_backing_array_mutation _ _ _).1,
   (claim8_backing_array_mutation _ _ _).2 _ rfl⟩

/-- Claim C9: gzip-compressing served content on the server (loadContent)
and gzip-decompressing the transported payload on the client (the tail of
fetchFile) yields exactly the original bytes, for any compressor and
decompressor forming an inverse pair — which compress/gzip's writer and
reader are documented to be. -/
theorem claim9_transport_roundtrip (gzCompress : List Nat → List Nat)
    (gzDecompress : List Nat → Option (List Nat))
    (fs : String → Option (List Nat)) (hashHex : List Nat → String)
    (pathArg sig : String) (content : List Nat)
    (hinv : ∀ bs, gzDecompress (gzCompress bs) = some bs)
    (hread : fs pathArg = some content) (hsig : hashHex content = sig) :
    loadContent fs hashHex gzCompress pathArg sig = Except.ok (gzCompress content) ∧
    fetchFileDecompress gzDecompress (gzCompress content) = Except.ok content := by
  constructor
  · simp [loadContent, hread, hsig]
  · simp [fetchFileDecompress, hinv]

/-- Claim C9 witness: a concrete inverse codec round-trips concrete
content through the server and client pipelines. -/
theorem claim9_transport_roundtrip_witness :
    loadContent (fun p => if p = "/m/files/agent" then some [7, 8] else none)
      (fun _ => "aa") (fun bs => bs) "/m/files/agent" "aa" = Except.ok [7, 8] ∧
    fetchFileDecompress (fun bs => some bs) [7, 8] = Except.ok [7, 8] :=
  claim9_transport_roundtrip (fun bs => bs) (fun bs => some bs) _ _ _ _ [7, 8]
    (fun _ => rfl) (by simp) rfl

/-- Claim C10: once the staged file verifies, fetchAndReplace returns
success regardless of whether the rename of the staged file over the target
succeeds — the rename's error value is assigned but never checked — so a
failed rename (target left untouched) is still reported as a successful
update. -/
theorem claim10_fetchAndReplace_ignores_rename_failure
    (fetch : String → Except String (List Nat)) (hashHex : List Nat → String)
    (w : World) (entry : BundleDictionaryEntry) (sig : String) (filebuf : List Nat)
    (hf : fetch entry.Name = Except.ok filebuf)
    (hok : hashHex filebuf = sig) :
    (fetchAndReplace fetch hashHex true w entry sig).2 = Except.ok () ∧
    (fetchAndReplace fetch hashHex false w entry sig).2 = Except.ok () ∧
    (fetchAndReplace fetch hashHex false w entry sig).1.fs entry.Path
      = w.fs entry.Path := by
  refine ⟨?_, ?_, ?_⟩ <;>
    simp [fetchAndReplace, hf, writeFile, hok, ne_append_loader entry.Path]

/-- Claim C10 witness: with a verifying staged file and a failing rename,
the update is still reported successful and the target is untouched. -/
theorem claim10_fetchAndReplace_ignores_rename_failure_witness :
    (fetchAndReplace (fun _ => Except.ok [1]) (fun _ => "aa") true
        (World.mk (fun _ => none))
        (BundleDictionaryEntry.mk "agent" "/sbin/mig-agent" "") "aa").2 = Except.ok () ∧
    (fetchAndReplace (fun _ => Except.ok [1]) (fun _ => "aa") false
        (World.mk (fun _ => none))
        (BundleDictionaryEntry.mk "agent" "/sbin/mig-agent" "") "aa").2 = Except.ok () ∧
    (fetchAndReplace (fun _ => Except.ok [1]) (fun _ => "aa") false
        (World.mk (fun _ => none))
        (BundleDictionaryEntry.mk "agent" "/sbin/mig-agent" "") "aa").1.fs "/sbin/mig-agent"
      = none :=
  claim10_fetchAndReplace_ignores_rename_failure _ _ _ _ _ [1] rfl rfl

end Mig
